import Mathlib

/-!
Verification of the DayQuest/CDN video content-delivery node.

The definitions below are shallow embeddings of the Go source:
machine integers (`int64`) are modelled as `Int`, Go strings as
`List Char`, and each handler or pipeline function is translated into a
pure Lean function over an explicit environment of operation outcomes.
File and line references point into the repository sources.
-/

namespace CDN

/-- Lifecycle states of an asset, from `internal/database` (`VideoStatus`):
Unknown 0, Pending 1, Processing 2, Completed 3, Failed 4. -/
inductive VideoStatus
  | unknown
  | pending
  | processing
  | completed
  | failed
deriving DecidableEq, Repr

/-- Outcome of scanning the `Range` request header, as distinguished by
`parseRangeHeader` in `internal/handlers/video.go` (lines 435-457):
the header may be absent, parse as `bytes=a-b` (two integers), parse as
`bytes=a-` (one integer), or fail both `Sscanf` forms. -/
inductive RangeHdr
  | absent
  | fullForm (a b : Int)
  | startForm (a : Int)
  | malformed
deriving DecidableEq, Repr

/-- The clamping tail of `parseRangeHeader` (video.go lines 450-456):
`if start < 0 { start = 0 }; if end >= fileSize { end = fileSize - 1 }`. -/
def rangeClamp (s e fileSize : Int) : Int × Int :=
  (if s < 0 then 0 else s, if e ≥ fileSize then fileSize - 1 else e)

/-- `parseRangeHeader` from `internal/handlers/video.go` lines 435-457.
An absent header and a header matching neither `Sscanf` pattern return
`(0, fileSize-1)` directly; the parsed forms go through the clamps.
For `bytes=a-` the end is set to `fileSize - 1` before the clamps run. -/
def parseRangeHeader (h : RangeHdr) (fileSize : Int) : Int × Int :=
  match h with
  | .absent => (0, fileSize - 1)
  | .malformed => (0, fileSize - 1)
  | .fullForm a b => rangeClamp a b fileSize
  | .startForm a => rangeClamp a (fileSize - 1) fileSize

/-- The `Content-Range` header value of a streaming reply: either the
unsatisfiable form `bytes */size` or the partial form `bytes s-e/size`. -/
inductive CRange
  | unsat (size : Int)
  | seg (s e size : Int)
deriving DecidableEq, Repr

/-- The response fields of the streaming handlers that the claims talk
about; headers not mentioned by any claim (Content-Type, Accept-Ranges,
cache headers) are not tracked. -/
structure StreamResp where
  status : Nat
  contentRange : Option CRange
  contentLength : Option Int
deriving DecidableEq, Repr

/-- Go `strings.HasSuffix` over `List Char`. -/
def endsWithL (s suf : List Char) : Bool :=
  decide (suf.length ≤ s.length) && decide (s.drop (s.length - suf.length) = suf)

/-- Go `strings.TrimSuffix` over `List Char`: removes one trailing copy
of `suf` when present. -/
def trimSuffixL (s suf : List Char) : List Char :=
  if endsWithL s suf then s.take (s.length - suf.length) else s

/-- `streamVideoFile` from `internal/handlers/video.go` lines 373-433,
restricted to the response fields above. After `start, end :=
parseRangeHeader(r, obj.Size)`: if `start >= obj.Size` the handler sets
`Content-Range: bytes */size` and replies 416 through `http.Error`
(which drops Content-Length); otherwise it sets `Content-Length:
end-start+1` and, when the range is partial, `Content-Range: bytes
s-e/size` with status 206, else 200 on first write. The `.mp4`/`.temp`
branch at lines 410-419 differs from the other branch only in the
Content-Type header, which is untracked, so the name does not influence
the tracked fields. -/
def streamVideoFile (videoName : List Char) (size : Int) (hdr : RangeHdr) : StreamResp :=
  let se := parseRangeHeader hdr size
  let s := se.1
  let e := se.2
  if s ≥ size then
    { status := 416, contentRange := some (.unsat size), contentLength := none }
  else
    let rangeSize := e - s + 1
    if s > 0 ∨ e < size - 1 then
      { status := 206, contentRange := some (.seg s e size), contentLength := some rangeSize }
    else
      { status := 200, contentRange := none, contentLength := some rangeSize }

/-- The earliest `StreamVideo` variant in `internal/handlers/video.go`
(lines 52-158), after a successful stat. `.m3u8`/`.ts` names take the
HLS passthrough (lines 92-119, tracked only as a 200 with no range
headers). Otherwise (lines 122-126) `start >= obj.Size` replies 416 via
`http.Error` WITHOUT setting any `Content-Range` header; the
non-416 path (lines 135-157) omits Content-Length for a full-body reply
(chunked transfer) and sets `Content-Range`/206 when partial. -/
def streamVideoV1 (videoName : List Char) (size : Int) (hdr : RangeHdr) : StreamResp :=
  if endsWithL videoName ".m3u8".toList || endsWithL videoName ".ts".toList then
    { status := 200, contentRange := none, contentLength := none }
  else
    let se := parseRangeHeader hdr size
    let s := se.1
    let e := se.2
    if s ≥ size then
      { status := 416, contentRange := none, contentLength := none }
    else
      let cl : Option Int := if s = 0 ∧ e = size - 1 then none else some (e - s + 1)
      if s > 0 ∨ e < size - 1 then
        { status := 206, contentRange := some (.seg s e size), contentLength := cl }
      else
        { status := 200, contentRange := none, contentLength := cl }

/-- C5: `parse_range(absent, size) = (0, size-1)`;
`parse_range("bytes=a-b", size) = (max(0,a), min(size-1,b))`; and a
start at or past the file size makes `streamVideoFile` reply 416. -/
theorem c5_parse_range_spec :
    (∀ size : Int, parseRangeHeader .absent size = (0, size - 1))
    ∧ (∀ size a b : Int, parseRangeHeader (.fullForm a b) size = (max 0 a, min (size - 1) b))
    ∧ (∀ (name : List Char) (size a b : Int), a ≥ size →
        (streamVideoFile name size (.fullForm a b)).status = 416) := by
  refine ⟨fun size => rfl, fun size a b => ?_, fun name size a b hge => ?_⟩
  · simp only [parseRangeHeader, rangeClamp, Prod.mk.injEq]
    constructor
    · split <;> omega
    · split <;> omega
  · have hs : (parseRangeHeader (.fullForm a b) size).1 ≥ size := by
      simp only [parseRangeHeader, rangeClamp]
      split <;> omega
    simp only [streamVideoFile]
    rw [if_pos hs]

/-- Witness for C5 at size 5, header `bytes=7-9`. -/
theorem c5_parse_range_spec_witness :
    (streamVideoFile ['v'] 5 (.fullForm 7 9)).status = 416 :=
  c5_parse_range_spec.2.2 ['v'] 5 7 9 (by decide)

/-- C8: for a well-formed `bytes=a-b` header with `0 ≤ b < a < size`,
the parser returns `(a, b)` with end < start (nothing enforces
start ≤ end), and `streamVideoFile` then emits a 206 response whose
Content-Length is `end - start + 1`, a non-positive value. -/
theorem c8_inverted_range (name : List Char) (size a b : Int)
    (hb : 0 ≤ b) (hba : b < a) (ha : a < size) :
    parseRangeHeader (.fullForm a b) size = (a, b)
    ∧ (streamVideoFile name size (.fullForm a b)).contentLength = some (b - a + 1)
    ∧ b - a + 1 ≤ 0
    ∧ (streamVideoFile name size (.fullForm a b)).status = 206 := by
  have hparse : parseRangeHeader (.fullForm a b) size = (a, b) := by
    have h1 : (if a < 0 then (0 : Int) else a) = a := by split <;> omega
    have h2 : (if b ≥ size then size - 1 else b) = b := by split <;> omega
    simp only [parseRangeHeader, rangeClamp, h1, h2]
  have hresp : streamVideoFile name size (.fullForm a b) =
      { status := 206, contentRange := some (.seg a b size), contentLength := some (b - a + 1) } := by
    simp only [streamVideoFile, hparse]
    rw [if_neg (by omega : ¬ ((a, b).1 ≥ size)), if_pos (by left; omega)]
  exact ⟨hparse, by rw [hresp], by omega, by rw [hresp]⟩

/-- Closed witness for C8 at `bytes=2-1` on a size-10 object. -/
theorem c8_inverted_range_witness :
    parseRangeHeader (.fullForm 2 1) 10 = (2, 1)
    ∧ (streamVideoFile ['v'] 10 (.fullForm 2 1)).contentLength = some 0
    ∧ (1 : Int) - 2 + 1 ≤ 0
    ∧ (streamVideoFile ['v'] 10 (.fullForm 2 1)).status = 206 :=
  c8_inverted_range ['v'] 10 2 1 (by decide) (by decide) (by decide)

/-- C9: on a zero-byte object the parsed range for an absent header is
`(0, -1)`, and every request — whatever its Range header — gets a 416
from `streamVideoFile`, so a zero-byte object is never served. -/
theorem c9_zero_size_always_416 :
    parseRangeHeader .absent 0 = (0, -1)
    ∧ ∀ (name : List Char) (h : RangeHdr), (streamVideoFile name 0 h).status = 416 := by
  refine ⟨rfl, fun name h => ?_⟩
  have hs : (parseRangeHeader h 0).1 ≥ 0 := by
    cases h with
    | absent => simp [parseRangeHeader]
    | malformed => simp [parseRangeHeader]
    | fullForm a b =>
        simp only [parseRangeHeader, rangeClamp]
        split <;> omega
    | startForm a =>
        simp only [parseRangeHeader, rangeClamp]
        split <;> omega
  simp only [streamVideoFile]
  rw [if_pos hs]

/-- C4 counterexample: in the earliest `StreamVideo` variant
(`internal/handlers/video.go` lines 122-126), a request on a 5-byte
object with `Range: bytes=10-12` is answered 416 but the response
carries no `Content-Range` header at all. -/
theorem c4_counterexample :
    (streamVideoV1 ['a', '.', 'm', 'p', '4'] 5 (.fullForm 10 12)).status = 416
    ∧ (streamVideoV1 ['a', '.', 'm', 'p', '4'] 5 (.fullForm 10 12)).contentRange = none := by
  constructor <;> rfl

/-- C4 amended: in `streamVideoFile` (lines 400-405) — and hence for the
handlers that delegate to it — a parsed range start at or past the
object size yields a 416 reply carrying `Content-Range: bytes */size`;
the earliest `StreamVideo` variant replies 416 without that header. -/
theorem c4_416_content_range (name : List Char) (size : Int) (hdr : RangeHdr)
    (h : (parseRangeHeader hdr size).1 ≥ size) :
    (streamVideoFile name size hdr).status = 416
    ∧ (streamVideoFile name size hdr).contentRange = some (.unsat size) := by
  simp only [streamVideoFile]
  rw [if_pos h]
  exact ⟨rfl, rfl⟩

/-- Witness for the amended C4 at size 1, header `bytes=5-7`. -/
theorem c4_416_content_range_witness :
    (streamVideoFile ['v'] 1 (.fullForm 5 7)).status = 416
    ∧ (streamVideoFile ['v'] 1 (.fullForm 5 7)).contentRange = some (.unsat 1) :=
  c4_416_content_range ['v'] 1 (.fullForm 5 7) (by decide)

/-- The value of the `status` field in the JSON body of
`GetVideoMetadata` replies. -/
inductive MetaField
  | notFound
  | pending
  | processing
  | failed
  | completed
  | error
deriving DecidableEq, Repr

/-- The HTTP status code and JSON `status` field of a
`GetVideoMetadata` reply. -/
structure MetaResp where
  status : Nat
  field : MetaField
deriving DecidableEq, Repr

/-- `DBHandler.GetVideoStatus` (src/unnamed/part_003 lines 122-135).
It returns the Go pair (status, err): a present row returns its status
with a nil error, while `sql.ErrNoRows` returns `StatusUnknown`
TOGETHER WITH a non-nil error ("video not found"). The catalog is an
association list keyed by `file_path`; the Bool is err ≠ nil. -/
def getVideoStatus (cat : List (List Char × VideoStatus)) (key : List Char) :
    VideoStatus × Bool :=
  match cat.find? (fun p => p.1 == key) with
  | some p => (p.2, false)
  | none => (.unknown, true)

/-- `GetVideoMetadata` from `internal/handlers/video.go` lines 513-617.
A `.temp` name whose `.mp4` base stats successfully short-circuits to a
200 `completed` reply (lines 517-539); otherwise the handler strips
`.temp` and `.mp4` from the name, queries the catalog, replies 500
`error` when `GetVideoStatus` returned a non-nil error (lines 543-553),
and otherwise maps the status through the switch at lines 555-590,
stat-ing VIDEOS in the `Completed` case. `statVideos` maps a key to the
stat result (`some size` when the object exists). -/
def getVideoMetadata (cat : List (List Char × VideoStatus))
    (statVideos : List Char → Option Int) (videoName : List Char) : MetaResp :=
  let isTemp := endsWithL videoName ".temp".toList
  let tempHit : Option MetaResp :=
    if isTemp then
      let base := trimSuffixL videoName ".temp".toList
      if endsWithL base ".mp4".toList then
        match statVideos base with
        | some _ => some { status := 200, field := .completed }
        | none => none
      else none
    else none
  match tempHit with
  | some r => r
  | none =>
    let videoID := trimSuffixL (trimSuffixL videoName ".temp".toList) ".mp4".toList
    let se := getVideoStatus cat videoID
    if se.2 then { status := 500, field := .error }
    else
      match se.1 with
      | .pending => { status := 202, field := .pending }
      | .processing => { status := 202, field := .processing }
      | .failed => { status := 422, field := .failed }
      | .unknown => { status := 404, field := .notFound }
      | .completed =>
        match statVideos videoName with
        | none => { status := 404, field := .notFound }
        | some _ => { status := 200, field := .completed }

/-- C3: for a key with no catalog row, `GetVideoMetadata` in fact
replies HTTP 500 with status field `error`, not 404 `not_found`:
`GetVideoStatus` pairs `StatusUnknown` with a non-nil error on
`sql.ErrNoRows`, and the handler's error check precedes its status
switch, so the `StatusUnknown → 404 not_found` branch never fires for a
missing row. -/
theorem c3_missing_row_gives_500 :
    getVideoMetadata [] (fun _ => none) "missing.mp4".toList
      = { status := 500, field := .error }
    ∧ getVideoMetadata [] (fun _ => none) "missing.mp4".toList
      ≠ { status := 404, field := .notFound } := by
  constructor <;> decide

/-- The configuration record of `internal/config`
(src/unnamed/part_003 lines 8-17). Note it has no thumbnail or profile
bucket field at all. -/
structure Config where
  minioEndpoint : String
  minioRootUser : String
  minioRootPassword : String
  videosBucket : String
  rawVideosBucket : String
  failedBucket : String
  serverPort : String
  databaseDSN : String
deriving DecidableEq, Repr

/-- The two error returns of `Config.validate`. -/
inductive ConfigErr
  | serverPortUnset
  | missingMinio
deriving DecidableEq, Repr

/-- `Config.validate` (part_003 lines 34-46): only SERVER_PORT,
MINIO_ENDPOINT, MINIO_ROOT_USER, MINIO_ROOT_PASSWORD, VIDEOS_BUCKET and
RAW_VIDEOS_BUCKET are checked for emptiness; `FailedBucket` and
`DatabaseDSN` are never inspected. -/
def Config.validate (c : Config) : Option ConfigErr :=
  if c.serverPort = "" then some .serverPortUnset
  else if c.minioEndpoint = "" ∨ c.minioRootUser = "" ∨ c.minioRootPassword = ""
      ∨ c.videosBucket = "" ∨ c.rawVideosBucket = "" then some .missingMinio
  else none

/-- `config.Load` (part_003 lines 19-32). `os.Getenv` returns "" for an
unset variable, so the environment is a total map from variable names
to values; `Load` returns the config together with `validate`'s error. -/
def configLoad (env : String → String) : Config × Option ConfigErr :=
  let cfg : Config := {
    serverPort := env "SERVER_PORT"
    minioEndpoint := env "MINIO_ENDPOINT"
    minioRootUser := env "MINIO_ROOT_USER"
    minioRootPassword := env "MINIO_ROOT_PASSWORD"
    videosBucket := env "VIDEOS_BUCKET"
    rawVideosBucket := env "RAW_VIDEOS_BUCKET"
    failedBucket := env "FAILED_BUCKET"
    databaseDSN := env "DATABASE_DSN" }
  (cfg, cfg.validate)

/-- An environment with the six checked variables set and
DATABASE_DSN, FAILED_BUCKET (and everything else) unset. -/
def envMissingDSN : String → String := fun name =>
  if name = "SERVER_PORT" then "8080"
  else if name = "MINIO_ENDPOINT" then "minio:9000"
  else if name = "MINIO_ROOT_USER" then "root"
  else if name = "MINIO_ROOT_PASSWORD" then "pw"
  else if name = "VIDEOS_BUCKET" then "videos"
  else if name = "RAW_VIDEOS_BUCKET" then "raw"
  else ""

/-- C7 counterexample: with DATABASE_DSN and FAILED_BUCKET unset (and
the six checked variables set), configuration loading reports no error,
so startup does not fail. -/
theorem c7_counterexample :
    envMissingDSN "DATABASE_DSN" = "" ∧ envMissingDSN "FAILED_BUCKET" = ""
    ∧ (configLoad envMissingDSN).2 = none := by
  refine ⟨by decide, by decide, by decide⟩

/-- C7 amended: configuration loading fails exactly when one of
SERVER_PORT, MINIO_ENDPOINT, MINIO_ROOT_USER, MINIO_ROOT_PASSWORD,
VIDEOS_BUCKET, RAW_VIDEOS_BUCKET is empty; FAILED_BUCKET and
DATABASE_DSN are not validated (and this Config has no thumbnail or
profile bucket field). -/
theorem c7_validate_spec (c : Config) :
    c.validate = none ↔
      (c.serverPort ≠ "" ∧ c.minioEndpoint ≠ "" ∧ c.minioRootUser ≠ ""
       ∧ c.minioRootPassword ≠ "" ∧ c.videosBucket ≠ "" ∧ c.rawVideosBucket ≠ "") := by
  unfold Config.validate
  split_ifs with h1 h2
  · simp_all
  · simp only [reduceCtorEq, false_iff]
    tauto
  · simp_all

/-- `strings.ReplaceAll(s, sep, "")` for a one-character separator
removes every occurrence of that character. -/
def removeAllChar (s : List Char) (c : Char) : List Char :=
  s.filter (fun x => x != c)

/-- The username sanitisation of `GetProfileImage`
(`internal/handlers/ping.go` lines 83-84): every '/' and every '\' is
removed before anything else happens to the username. -/
def sanitizeUsername (u : List Char) : List Char :=
  removeAllChar (removeAllChar u '/') '\\'

/-- The candidate filename patterns of `GetProfileImage` (lines 87-94),
built from the already-sanitised username. -/
def profilePatterns (u : List Char) : List (List Char) :=
  [ u ++ ".jpg".toList, u ++ ".png".toList, u ++ ".jpeg".toList,
    "user_".toList ++ u ++ ".jpg".toList,
    "user_".toList ++ u ++ ".png".toList,
    "user_".toList ++ u ++ ".jpeg".toList ]

/-- The object keys looked up in the profile bucket (lines 101-103):
`filepath.Join("profile-pictures", pattern)`. No pattern is empty, ".",
"..", or contains a separator, so `filepath.Clean` inside `Join` is the
identity and the join is plain concatenation with '/'. -/
def profileCandidatePaths (username : List Char) : List (List Char) :=
  (profilePatterns (sanitizeUsername username)).map
    (fun pat => "profile-pictures/".toList ++ pat)

/-- The sanitised username contains no '/' and no '\'. -/
theorem sanitizeUsername_no_sep (u : List Char) :
    (sanitizeUsername u).count '/' = 0 ∧ (sanitizeUsername u).count '\\' = 0 := by
  constructor <;>
  · rw [List.count_eq_zero]
    intro hmem
    simp [sanitizeUsername, removeAllChar, List.mem_filter] at hmem

/-- C10: every object key looked up in the profile bucket is
`"profile-pictures/"` followed by one of the fixed patterns, and the
pattern contains no '/' and no '\' — the input's path separators were
all removed before any candidate path was built. -/
theorem c10_profile_paths_sanitised (username p : List Char)
    (hp : p ∈ profileCandidatePaths username) :
    ∃ pat, pat ∈ profilePatterns (sanitizeUsername username)
      ∧ p = "profile-pictures/".toList ++ pat
      ∧ pat.count '/' = 0 ∧ pat.count '\\' = 0 := by
  obtain ⟨pat, hpat, rfl⟩ := List.mem_map.mp hp
  refine ⟨pat, hpat, rfl, ?_, ?_⟩ <;>
  · have hs := sanitizeUsername_no_sep username
    simp only [profilePatterns, List.mem_cons, List.not_mem_nil, or_false] at hpat
    rcases hpat with rfl | rfl | rfl | rfl | rfl | rfl <;>
      simp [List.count_append, hs.1, hs.2]

/-- Witness for C10: the username "ali/ce" yields the candidate key
"profile-pictures/alice.jpg", whose pattern part has no separators. -/
theorem c10_profile_paths_sanitised_witness :
    ∃ pat, pat ∈ profilePatterns (sanitizeUsername "ali/ce".toList)
      ∧ "profile-pictures/alice.jpg".toList = "profile-pictures/".toList ++ pat
      ∧ pat.count '/' = 0 ∧ pat.count '\\' = 0 :=
  c10_profile_paths_sanitised "ali/ce".toList "profile-pictures/alice.jpg".toList (by decide)

/-- One observable effect of the ingest pipeline on the shared stores:
catalog status writes, bucket reads/writes/deletes, and goroutine
launches. A failed operation leaves no event; only effects that
actually completed are recorded. `getRaw` covers both the transcode
download and the quarantine copy's download of RAW/key. -/
inductive WEv
  | updStatus (s : VideoStatus)
  | getRaw
  | putVideos
  | putThumb
  | putFailed
  | spawnThumbUpload
  | spawnDeleteRaw
  | deleteRaw
deriving DecidableEq, Repr

/-- Success or failure of each external call that `processVideo` and
`moveToFailedBucket` perform, one Bool per call site. `putVideosOk`
covers opening the compressed file and uploading it to VIDEOS — both
failures take the same return path before any upload event. -/
structure PvEnv where
  updProcessingOk : Bool
  getOk : Bool
  copyOk : Bool
  compressOk : Bool
  thumbOk : Bool
  thumbUploadOk : Bool
  putVideosOk : Bool
  deleteRawOk : Bool
  updFailedOk : Bool
  moveGetOk : Bool
  movePutOk : Bool
  moveDeleteOk : Bool
  updCompletedOk : Bool
deriving DecidableEq, Repr

/-- The return value of `processVideo`: nil, or the error of the call
site that aborted it. -/
inductive PvResult
  | ok
  | errUpdProcessing
  | errGet
  | errCopy
  | errCompress
  | errUpdFailed
  | errOpenOrPut
  | errDeleteRaw
  | errThumb
  | errThumbUpload
  | errUpdCompleted
deriving DecidableEq, Repr

/-- `moveToFailedBucket` from `src/worker.go` lines 315-351: download
RAW/key, upload it into FAILED, then SPAWN a background goroutine for
the RAW delete (lines 343-348) and return success without waiting for
that delete. -/
def Worker.moveToFailedBucket (e : PvEnv) : Bool × List WEv :=
  if !e.moveGetOk then (false, [])
  else if !e.movePutOk then (false, [.getRaw])
  else (true, [.getRaw, .putFailed, .spawnDeleteRaw])

/-- `processVideo` from `src/worker.go` lines 120-232, as the sequence
of completed effects in program order. Steps: status := Processing;
download RAW/key into a temp file; ffmpeg transcode and thumbnail
extraction (local, in parallel); on transcode failure status := Failed
and then `moveToFailedBucket` (lines 169-179, the status write comes
FIRST and runs even when it fails the move still runs); on transcode
success a goroutine uploading the thumbnail is spawned when extraction
succeeded (lines 182-190); the compressed file is uploaded to VIDEOS
(lines 192-217); a goroutine deleting RAW/key is SPAWNED (lines
219-224); finally status := Completed (line 226). -/
def Worker.processVideo (e : PvEnv) : PvResult × List WEv :=
  if !e.updProcessingOk then (.errUpdProcessing, [])
  else
    let t1 : List WEv := [.updStatus .processing]
    if !e.getOk then (.errGet, t1)
    else
      let t2 := t1 ++ [.getRaw]
      if !e.copyOk then (.errCopy, t2)
      else if !e.compressOk then
        let t3 := t2 ++ (if e.updFailedOk then [WEv.updStatus .failed] else [])
        let mv := Worker.moveToFailedBucket e
        let t4 := t3 ++ mv.2
        if !e.updFailedOk then (.errUpdFailed, t4) else (.errCompress, t4)
      else
        let t3 := t2 ++ (if e.thumbOk then [WEv.spawnThumbUpload] else [])
        if !e.putVideosOk then (.errOpenOrPut, t3)
        else
          let t4 := t3 ++ [.putVideos, .spawnDeleteRaw]
          if !e.updCompletedOk then (.errUpdCompleted, t4)
          else (.ok, t4 ++ [.updStatus .completed])

/-- `moveToFailedBucket` from `internal/storage/worker.go` lines
253-278 (the older worker): here the RAW delete is synchronous and its
failure fails the move. -/
def WorkerOld.moveToFailedBucket (e : PvEnv) : Bool × List WEv :=
  if !e.moveGetOk then (false, [])
  else if !e.movePutOk then (false, [.getRaw])
  else if !e.moveDeleteOk then (false, [.getRaw, .putFailed])
  else (true, [.getRaw, .putFailed, .deleteRaw])

/-- `processVideo` from `internal/storage/worker.go` lines 102-181 (the
older worker): sequential steps status := Processing; download; ffmpeg
(failure → status := Failed then synchronous move, lines 128-139);
upload to VIDEOS; synchronous RAW delete (lines 160-163); thumbnail
extraction (lines 165-168, failure returns an ERROR); thumbnail upload
(lines 170-173, failure returns an ERROR); status := Completed. -/
def WorkerOld.processVideo (e : PvEnv) : PvResult × List WEv :=
  if !e.updProcessingOk then (.errUpdProcessing, [])
  else
    let t1 : List WEv := [.updStatus .processing]
    if !e.getOk then (.errGet, t1)
    else
      let t2 := t1 ++ [.getRaw]
      if !e.copyOk then (.errCopy, t2)
      else if !e.compressOk then
        let t3 := t2 ++ (if e.updFailedOk then [WEv.updStatus .failed] else [])
        let mv := WorkerOld.moveToFailedBucket e
        let t4 := t3 ++ mv.2
        if !e.updFailedOk then (.errUpdFailed, t4) else (.errCompress, t4)
      else if !e.putVideosOk then (.errOpenOrPut, t2)
      else
        let t3 := t2 ++ [.putVideos]
        if !e.deleteRawOk then (.errDeleteRaw, t3)
        else
          let t4 := t3 ++ [.deleteRaw]
          if !e.thumbOk then (.errThumb, t4)
          else if !e.thumbUploadOk then (.errThumbUpload, t4)
          else
            let t5 := t4 ++ [.putThumb]
            if !e.updCompletedOk then (.errUpdCompleted, t5)
            else (.ok, t5 ++ [.updStatus .completed])

/-- Index of the first occurrence of `a` in `l` (= `l.length` when `a`
is absent). -/
def evIdx (a : WEv) : List WEv → Nat
  | [] => 0
  | x :: xs => if x = a then 0 else evIdx a xs + 1

/-- `a` occurs in `l`, strictly before the first occurrence of `b`. -/
def evBefore (a b : WEv) (l : List WEv) : Prop :=
  a ∈ l ∧ evIdx a l < evIdx b l

instance (a b : WEv) (l : List WEv) : Decidable (evBefore a b l) :=
  inferInstanceAs (Decidable (_ ∧ _))

/-- All call sites succeed. -/
def allOkEnv : PvEnv :=
  ⟨true, true, true, true, true, true, true, true, true, true, true, true, true⟩

/-- The ffmpeg transcode fails; every other call site succeeds. -/
def compressFailEnv : PvEnv := { allOkEnv with compressOk := false }

/-- Thumbnail extraction fails; every other call site succeeds. -/
def thumbFailEnv : PvEnv := { allOkEnv with thumbOk := false }

/-- C2 counterexample. Failure path of `src/worker.go`'s `processVideo`
with only the transcode failing: the `Failed` status write is the THIRD
completed effect, strictly before the upload into FAILED, and no RAW
delete completes anywhere in the synchronous execution (it is only
spawned) — so an observer of `Failed` is guaranteed neither an object
in FAILED nor RAW's removal. Success path: the trace ends with the
`Completed` write while the RAW delete again never completes within it,
so the RAW delete does not complete before the terminal status write
becomes visible. -/
theorem c2_counterexample :
    (Worker.processVideo compressFailEnv).2
      = [.updStatus .processing, .getRaw, .updStatus .failed, .getRaw, .putFailed, .spawnDeleteRaw]
    ∧ evBefore (.updStatus .failed) .putFailed (Worker.processVideo compressFailEnv).2
    ∧ WEv.deleteRaw ∉ (Worker.processVideo compressFailEnv).2
    ∧ (Worker.processVideo allOkEnv).2
      = [.updStatus .processing, .getRaw, .spawnThumbUpload, .putVideos, .spawnDeleteRaw,
         .updStatus .completed]
    ∧ WEv.deleteRaw ∉ (Worker.processVideo allOkEnv).2 := by
  decide

/-- C2 amended: within one key the ordering that does hold is — on
every successful run the VIDEOS upload strictly precedes the
`Completed` status write, and the RAW delete is spawned (not completed)
before it; and whenever the quarantine copy happens, the `Failed`
status write strictly precedes the upload into FAILED. The RAW delete
never completes within the synchronous execution on any run. -/
theorem c2_strict_order_amended :
    (∀ e : PvEnv, (Worker.processVideo e).1 = .ok →
       evBefore .putVideos (.updStatus .completed) (Worker.processVideo e).2
       ∧ evBefore .spawnDeleteRaw (.updStatus .completed) (Worker.processVideo e).2)
    ∧ (∀ e : PvEnv, e.updFailedOk = true → WEv.putFailed ∈ (Worker.processVideo e).2 →
       evBefore (.updStatus .failed) .putFailed (Worker.processVideo e).2)
    ∧ (∀ e : PvEnv, WEv.deleteRaw ∉ (Worker.processVideo e).2) := by
  refine ⟨?_, ?_, ?_⟩ <;>
  · intro e
    obtain ⟨f1, f2, f3, f4, f5, f6, f7, f8, f9, f10, f11, f12, f13⟩ := e
    revert f1 f2 f3 f4 f5 f6 f7 f8 f9 f10 f11 f12 f13
    decide

/-- Witness for the amended C2 on the all-success and transcode-failure
environments. -/
theorem c2_strict_order_amended_witness :
    evBefore .putVideos (.updStatus .completed) (Worker.processVideo allOkEnv).2
    ∧ evBefore (.updStatus .failed) .putFailed (Worker.processVideo compressFailEnv).2 :=
  ⟨(c2_strict_order_amended.1 allOkEnv (by decide)).1,
   c2_strict_order_amended.2.1 compressFailEnv (by decide) (by decide)⟩

/-- C6 counterexample. In the older worker
(`internal/storage/worker.go`), with the transcode succeeding and only
thumbnail extraction failing, `processVideo` returns an error: the
video was uploaded and RAW deleted, yet the key never reaches
`Completed` — a thumbnail failure DOES prevent process(key) from
completing there. -/
theorem c6_counterexample :
    (WorkerOld.processVideo thumbFailEnv).1 = .errThumb
    ∧ WEv.updStatus .completed ∉ (WorkerOld.processVideo thumbFailEnv).2
    ∧ WEv.putVideos ∈ (WorkerOld.processVideo thumbFailEnv).2
    ∧ WEv.deleteRaw ∈ (WorkerOld.processVideo thumbFailEnv).2 := by
  decide

/-- C6 amended: in `src/worker.go`'s `processVideo` the claim holds —
whatever the thumbnail extraction and upload outcomes, a successful
transcode leads to the VIDEOS upload, the (spawned) RAW delete and the
`Completed` status write; and a transcode failure is fatal, routing the
key to the FAILED quarantine. In the older
`internal/storage/worker.go` variant a thumbnail failure is fatal
instead (see the counterexample). -/
theorem c6_thumbnail_nonfatal :
    (∀ e : PvEnv, e.updProcessingOk = true → e.getOk = true → e.copyOk = true →
       e.compressOk = true → e.putVideosOk = true → e.updCompletedOk = true →
       (Worker.processVideo e).1 = .ok
       ∧ WEv.putVideos ∈ (Worker.processVideo e).2
       ∧ WEv.spawnDeleteRaw ∈ (Worker.processVideo e).2
       ∧ WEv.updStatus .completed ∈ (Worker.processVideo e).2)
    ∧ (∀ e : PvEnv, e.updProcessingOk = true → e.getOk = true → e.copyOk = true →
       e.compressOk = false → e.updFailedOk = true → e.moveGetOk = true → e.movePutOk = true →
       (Worker.processVideo e).1 = .errCompress
       ∧ WEv.putFailed ∈ (Worker.processVideo e).2) := by
  constructor <;>
  · intro e
    obtain ⟨f1, f2, f3, f4, f5, f6, f7, f8, f9, f10, f11, f12, f13⟩ := e
    revert f1 f2 f3 f4 f5 f6 f7 f8 f9 f10 f11 f12 f13
    decide

/-- Witness for the amended C6: with thumbnail extraction failing the
run still completes; with the transcode failing the key is
quarantined. -/
theorem c6_thumbnail_nonfatal_witness :
    (Worker.processVideo thumbFailEnv).1 = .ok
    ∧ WEv.putFailed ∈ (Worker.processVideo compressFailEnv).2 :=
  ⟨(c6_thumbnail_nonfatal.1 thumbFailEnv (by decide) (by decide) (by decide) (by decide)
      (by decide) (by decide)).1,
   (c6_thumbnail_nonfatal.2 compressFailEnv (by decide) (by decide) (by decide) (by decide)
      (by decide) (by decide) (by decide)).2⟩

/-- Scheduler state of `VideoProcessor.Start`/`processWorker`
(`src/worker.go`): the keys currently stored in the `processedFiles`
sync.Map (the in-flight set), the buffered work channel content, and
each worker's currently-held key (`none` = idle at the receive). -/
structure SchedState where
  inFlight : List String
  chan : List String
  workers : List (Option String)
deriving DecidableEq, Repr

/-- One scheduler transition, translated from `src/worker.go`; `raw` is
the RAW bucket listing, kept fixed.
`discover` is the ticker body (lines 57-76): a key is skipped only when
`processedFiles.Load` hits, otherwise it is sent to the channel of
capacity `2·W` (line 39).
`take` is the worker receive (line 88); `finish` is the end of the
retry loop (lines 93-115), after which the worker returns to the
receive. The source contains no `processedFiles.Store` and no
`processedFiles.Delete` call anywhere, so no transition modifies
`inFlight` — this is the embedding of exactly what the code does. -/
inductive SchedStep (raw : List String) : SchedState → SchedState → Prop
  | discover (s : SchedState) (k : String) :
      k ∈ raw → k ∉ s.inFlight → s.chan.length < 2 * s.workers.length →
      SchedStep raw s { s with chan := s.chan ++ [k] }
  | take (s : SchedState) (i : Nat) (k : String) (rest : List String) :
      s.chan = k :: rest → s.workers.get? i = some none →
      SchedStep raw s { s with chan := rest, workers := s.workers.set i (some k) }
  | finish (s : SchedState) (i : Nat) (k : String) :
      s.workers.get? i = some (some k) →
      SchedStep raw s { s with workers := s.workers.set i none }

/-- States reachable by scheduler transitions. -/
def SchedReach (raw : List String) : SchedState → SchedState → Prop :=
  Relation.ReflTransGen (SchedStep raw)

/-- The scheduler's start state with `w` idle workers. -/
def schedInit (w : Nat) : SchedState :=
  { inFlight := [], chan := [], workers := List.replicate w none }

/-- No scheduler transition ever writes the in-flight set: the code
only ever calls `processedFiles.Load`. -/
theorem schedStep_inFlight_const (raw : List String) (s t : SchedState)
    (h : SchedStep raw s t) : t.inFlight = s.inFlight := by
  cases h <;> rfl

/-- C1: a state in which BOTH workers concurrently hold the same
asset-key is reachable. The key "a.mp4" sits in RAW; the discovery tick
enqueues it (the in-flight probe misses — nothing was ever stored),
worker 0 takes it, a later tick enqueues it again (the probe still
misses: no insertion happened at the receive), and worker 1 takes it
too. The claimed insert-on-receive / remove-on-finish protocol does not
exist in the code. -/
theorem c1_two_workers_same_key :
    ∃ s : SchedState, SchedReach ["a.mp4"] (schedInit 2) s
      ∧ s.workers = [some "a.mp4", some "a.mp4"]
      ∧ s.inFlight = [] := by
  refine ⟨⟨[], [], [some "a.mp4", some "a.mp4"]⟩, ?_, rfl, rfl⟩
  exact Relation.ReflTransGen.head
    (SchedStep.discover ⟨[], [], [none, none]⟩ "a.mp4" (by decide) (by decide) (by decide))
    (Relation.ReflTransGen.head
      (SchedStep.take ⟨[], ["a.mp4"], [none, none]⟩ 0 "a.mp4" [] rfl rfl)
      (Relation.ReflTransGen.head
        (SchedStep.discover ⟨[], [], [some "a.mp4", none]⟩ "a.mp4" (by decide) (by decide)
          (by decide))
        (Relation.ReflTransGen.head
          (SchedStep.take ⟨[], ["a.mp4"], [some "a.mp4", none]⟩ 1 "a.mp4" [] rfl rfl)
          Relation.ReflTransGen.refl)))

end CDN
